import Mathlib

/-
Formal model of the LSbackend GPS tracking server.

The repository has two revisions of the same Express server:
* `server.js` — the canonical revision: a `processLocationData` middleware
  derives speed and heading from the previous stored fix (haversine distance,
  3-D distance with altitude, bearing, exponential low-pass smoothing) before
  the `POST /api/location` handler upserts the document.  The handler itself
  stores the payload's `status` field verbatim.
* `src/unnamed/part_000` — an earlier revision without the derivation
  middleware; its `POST /api/location` handler classifies
  `status = speed && speed > 0 ? 'moving' : 'stopped'` from the payload's own
  speed field.

JavaScript numbers are modelled as real numbers.  Timestamps are caller
supplied strings parsed with `new Date(...)`; a `Timestamp` record carries the
raw string together with `parsed`, the result of that (deterministic) parse in
milliseconds, `none` standing for an Invalid Date (NaN time value).  MongoDB
documents are modelled per vehicle: the `Location` collection holds at most
one document per `busNumber` (the handler upserts by `busNumber`), so storage
is an `Option StoredFix`.  A Mongoose update strips `undefined` fields, and
schema defaults (`altitude 0`, `accuracy 5`, `speed 0`, `heading 0`,
`status 'stopped'`) apply when a document is inserted, which `findOneAndUpdate`
below reflects.
-/

namespace LSbackend

open Real

/-- A latitude/longitude pair in degrees, as passed to the geo helpers. -/
structure Coord where
  latitude : ℝ
  longitude : ℝ

/-- Degree to radian conversion, `toRad` in `server.js`. -/
noncomputable def toRad (d : ℝ) : ℝ := d * Real.pi / 180

/-- Radian to degree conversion, `toDeg` in `server.js`. -/
noncomputable def toDeg (r : ℝ) : ℝ := r * 180 / Real.pi

/-- JavaScript's `Math.atan2`, which Mathlib does not provide directly. -/
noncomputable def atan2 (y x : ℝ) : ℝ :=
  if 0 < x then Real.arctan (y / x)
  else if x < 0 ∧ 0 ≤ y then Real.arctan (y / x) + Real.pi
  else if x < 0 ∧ y < 0 then Real.arctan (y / x) - Real.pi
  else if x = 0 ∧ 0 < y then Real.pi / 2
  else if x = 0 ∧ y < 0 then -(Real.pi / 2)
  else 0

/-- Haversine great-circle distance of `server.js` (`calculateDistance`),
with the radius constant 6378137 fixed inside the body exactly as in the
source. -/
noncomputable def calculateDistance (c1 c2 : Coord) : ℝ :=
  let R : ℝ := 6378137
  let dLat := toRad (c2.latitude - c1.latitude)
  let dLon := toRad (c2.longitude - c1.longitude)
  let lat1 := toRad c1.latitude
  let lat2 := toRad c2.latitude
  let a := Real.sin (dLat / 2) ^ 2 +
    Real.cos lat1 * Real.cos lat2 * Real.sin (dLon / 2) ^ 2
  let c := 2 * atan2 (Real.sqrt a) (Real.sqrt (1 - a))
  R * c

/-- Truncation toward zero, the rounding used by JavaScript's `%`. -/
noncomputable def jsTrunc (x : ℝ) : ℤ :=
  if 0 ≤ x then ⌊x⌋ else -⌊-x⌋

/-- JavaScript's remainder operator `%` on numbers. -/
noncomputable def jsMod (a b : ℝ) : ℝ :=
  a - b * (jsTrunc (a / b) : ℝ)

/-- Initial bearing of `server.js` (`calculateBearing`), normalized with
`(brng + 360) % 360`. -/
noncomputable def calculateBearing (c1 c2 : Coord) : ℝ :=
  let lat1 := toRad c1.latitude
  let lat2 := toRad c2.latitude
  let dLon := toRad (c2.longitude - c1.longitude)
  let y := Real.sin dLon * Real.cos lat2
  let x := Real.cos lat1 * Real.sin lat2 -
    Real.sin lat1 * Real.cos lat2 * Real.cos dLon
  let brng := toDeg (atan2 y x)
  jsMod (brng + 360) 360

/-- Exponential smoothing filter of `server.js` (`lowPassFilter`).  The JS
function takes `alpha = 0.3` as a default argument; every call site uses that
default, and the model passes `3/10` explicitly. -/
noncomputable def lowPassFilter (curr : ℝ) (prev : Option ℝ) (alpha : ℝ) : ℝ :=
  match prev with
  | none => curr
  | some p => alpha * curr + (1 - alpha) * p

/-- The `status` enum of the location schema. -/
inductive MotionStatus where
  | moving
  | stopped
deriving DecidableEq

/-- A caller-supplied timestamp: the raw string plus the (deterministic)
result of `new Date(raw).getTime()` in milliseconds, `none` for an
Invalid Date. -/
structure Timestamp where
  raw : String
  parsed : Option ℤ
deriving DecidableEq

/-- The request body of `POST /api/location`: fields the handler destructures.
`none` models an absent (`undefined`) field. -/
structure Payload where
  busNumber : String
  deviceId : Option ℤ
  latitude : ℝ
  longitude : ℝ
  altitude : Option ℝ
  accuracy : Option ℝ
  speed : Option ℝ
  heading : Option ℝ
  status : Option MotionStatus
  timestamp : Timestamp

/-- A stored `Location` document.  The schema gives every derived field a
default (`altitude 0`, `accuracy 5`, `speed 0`, `heading 0`,
`status 'stopped'`), so a loaded document always carries concrete values for
them; `deviceId` has no default and update validators are off, hence it stays
optional. -/
structure StoredFix where
  busNumber : String
  deviceId : Option ℤ
  latitude : ℝ
  longitude : ℝ
  altitude : ℝ
  accuracy : ℝ
  speed : ℝ
  heading : ℝ
  status : MotionStatus
  timestamp : Timestamp

/-- The `Location.findOneAndUpdate({busNumber}, {...}, {upsert: true})` call:
on an existing document the provided (non-`undefined`) fields are set and the
others keep their stored values; on insert the schema defaults fill the
missing fields. -/
def findOneAndUpdate (existing : Option StoredFix) (p : Payload) : StoredFix :=
  match existing with
  | some old =>
    { busNumber := p.busNumber
      deviceId := match p.deviceId with | some d => some d | none => old.deviceId
      latitude := p.latitude
      longitude := p.longitude
      altitude := p.altitude.getD old.altitude
      accuracy := p.accuracy.getD old.accuracy
      speed := p.speed.getD old.speed
      heading := p.heading.getD old.heading
      status := p.status.getD old.status
      timestamp := p.timestamp }
  | none =>
    { busNumber := p.busNumber
      deviceId := p.deviceId
      latitude := p.latitude
      longitude := p.longitude
      altitude := p.altitude.getD 0
      accuracy := p.accuracy.getD 5
      speed := p.speed.getD 0
      heading := p.heading.getD 0
      status := p.status.getD MotionStatus.stopped
      timestamp := p.timestamp }

/-- The 3-D distance computed inside `processLocationData`:
`Math.sqrt(dist2d * dist2d + altDiff * altDiff)` with
`altDiff = altitude - prev.altitude` and the destructuring default
`altitude = 0`. -/
noncomputable def dist3dOf (pv : StoredFix) (p : Payload) : ℝ :=
  let dist2d := calculateDistance
    { latitude := pv.latitude, longitude := pv.longitude }
    { latitude := p.latitude, longitude := p.longitude }
  let altDiff := p.altitude.getD 0 - pv.altitude
  Real.sqrt (dist2d * dist2d + altDiff * altDiff)

/-- The `processLocationData` middleware of `server.js`: given the stored fix
for the payload's `busNumber` (if any) it overwrites `req.body.speed` and
`req.body.heading` with low-pass filtered derived values whenever the time
difference `dt` (seconds) is positive; otherwise the body passes through
untouched.  `dt` is NaN when either timestamp fails to parse, and `NaN > 0`
is false, so the both-parsed match mirrors the code. -/
noncomputable def processLocationData (stored : Option StoredFix) (p : Payload) : Payload :=
  match stored with
  | none => p
  | some pv =>
    match p.timestamp.parsed, pv.timestamp.parsed with
    | some tNew, some tPrev =>
      let dt : ℝ := ((tNew : ℝ) - (tPrev : ℝ)) / 1000
      if 0 < dt then
        let rawSpeed := dist3dOf pv p / dt
        let rawBearing := calculateBearing
          { latitude := pv.latitude, longitude := pv.longitude }
          { latitude := p.latitude, longitude := p.longitude }
        { p with
          speed := some (lowPassFilter rawSpeed (some pv.speed) (3 / 10))
          heading := some (lowPassFilter rawBearing (some pv.heading) (3 / 10)) }
      else p
    | _, _ => p

/-- The full `POST /api/location` pipeline of `server.js`.  `loadFails` models
an exception inside `processLocationData` (e.g. the `findOne` for the previous
fix rejecting): its catch block logs and calls `next()`, so the body reaches
the handler unenriched.  `storeFails` models the upsert itself rejecting, the
only path that answers with an error (HTTP 500). -/
noncomputable def submitFix (stored : Option StoredFix) (loadFails storeFails : Bool)
    (p : Payload) : Except String StoredFix :=
  let enriched := if loadFails then p else processLocationData stored p
  if storeFails then Except.error "Failed to update location"
  else Except.ok (findOneAndUpdate stored enriched)

/-- The motion classification of the `part_000` revision:
`speed && speed > 0 ? 'moving' : 'stopped'` over the payload's own speed
field (truthiness first, then the comparison). -/
noncomputable def statusOf (speed : Option ℝ) : MotionStatus :=
  match speed with
  | none => MotionStatus.stopped
  | some s => if s ≠ 0 then (if 0 < s then MotionStatus.moving else MotionStatus.stopped)
      else MotionStatus.stopped

/-- The `POST /api/location` handler of the `part_000` revision: required-field
check (falsy `busNumber`, `deviceId`, `timestamp`; `latitude`/`longitude`
present), then upsert with the status computed from the payload speed.  There
is no derivation middleware in that revision. -/
noncomputable def handleLocationV0 (stored : Option StoredFix) (p : Payload) :
    Except String StoredFix :=
  if p.busNumber = "" ∨ p.deviceId = none ∨ p.deviceId = some 0 ∨ p.timestamp.raw = "" then
    Except.error "Missing required fields"
  else
    Except.ok (findOneAndUpdate stored { p with status := some (statusOf p.speed) })

/-- A `Bus` document: vehicle identity plus assignment state. -/
structure Bus where
  busNumber : String
  assigned : Bool
  deviceId : Option ℤ
  username : Option String
deriving DecidableEq

/-- Error answers of the `POST /api/register` handler. -/
inductive RegError where
  | missingFields
  | notFound
  | alreadyAssigned
  | poolExhausted
deriving DecidableEq

/-- `Bus.findOne({busNumber})`: the first document with the given number. -/
def findBus (buses : List Bus) (busNumber : String) : Option Bus :=
  buses.find? (fun b => b.busNumber = busNumber)

/-- `bus.save()`: replace the (first) document with the same `busNumber`. -/
def saveBus (buses : List Bus) (nb : Bus) : List Bus :=
  match buses with
  | [] => []
  | x :: xs => if x.busNumber = nb.busNumber then nb :: xs else x :: saveBus xs nb

/-- `Bus.find({assigned: true}).distinct('deviceId')`, as a list of the
device ids held by assigned buses (dedup does not matter for membership). -/
def assignedIdsOf (buses : List Bus) : List ℤ :=
  (buses.filter (fun b => b.assigned)).filterMap (fun b => b.deviceId)

/-- The free handles `Array.from({length: 100}, (_, i) => i+1).filter(...)`
of the register handler. -/
def freeIdsOf (buses : List Bus) : List ℤ :=
  ((List.range 100).map (fun n : ℕ => (n : ℤ) + 1)).filter
    (fun i => decide (i ∉ assignedIdsOf buses))

/-- The `POST /api/register` handler (`assign` in the spec).  `k` models the
random draw: the handler picks `freeIds[Math.floor(Math.random()*len)]`, an
arbitrary index below `freeIds.length`, here `k % freeIds.length`.  The
result pairs the response with the registry state after the call; every error
path returns before any write, leaving the state unchanged.  The `part_000`
revision differs only in comparing ids via `Number(a) === id`, which is the
same membership test in this model. -/
def apiRegister (buses : List Bus) (username busNumber : String) (k : ℕ) :
    Except RegError ℤ × List Bus :=
  if username = "" ∨ busNumber = "" then (Except.error RegError.missingFields, buses)
  else
    match findBus buses busNumber with
    | none => (Except.error RegError.notFound, buses)
    | some b =>
      if b.assigned then (Except.error RegError.alreadyAssigned, buses)
      else
        let freeIds := freeIdsOf buses
        if freeIds = [] then (Except.error RegError.poolExhausted, buses)
        else
          let id := freeIds.getD (k % freeIds.length) 0
          (Except.ok id,
            saveBus buses
              { b with
                assigned := true
                deviceId := some id
                username := some username })

/-- The registry invariant of the spec: no device handle is held by two
assigned vehicles. -/
def HandleUnique (buses : List Bus) : Prop :=
  List.Pairwise
    (fun a c => ∀ h : ℤ, a.assigned = true → c.assigned = true →
      a.deviceId = some h → c.deviceId ≠ some h) buses

/-- Haversine great-circle distance as worded in the spec (section 4.2a):
the haversine formula on a sphere whose radius `R` is a parameter, used to
compare the code's fixed-radius `calculateDistance` against the spec's
"radius exactly 6,378,137 m". -/
noncomputable def haversineSpecDist (R : ℝ) (c1 c2 : Coord) : ℝ :=
  let phi1 := c1.latitude * Real.pi / 180
  let phi2 := c2.latitude * Real.pi / 180
  let lam1 := c1.longitude * Real.pi / 180
  let lam2 := c2.longitude * Real.pi / 180
  let a := Real.sin ((phi2 - phi1) / 2) ^ 2 +
    Real.cos phi1 * Real.cos phi2 * Real.sin ((lam2 - lam1) / 2) ^ 2
  R * (2 * atan2 (Real.sqrt a) (Real.sqrt (1 - a)))

/-- A previously stored fix whose smoothed speed is 2 m/s, used to probe the
status handling of the canonical pipeline. -/
noncomputable def c1Pv : StoredFix :=
  { busNumber := "MH08AA1234"
    deviceId := some 7
    latitude := 19
    longitude := 72.8
    altitude := 0
    accuracy := 5
    speed := 2
    heading := 0
    status := MotionStatus.stopped
    timestamp := { raw := "2024-01-01T00:00:00.000Z", parsed := some 0 } }

/-- A follow-up fix at the same position 100 s later, carrying no speed,
heading or status of its own. -/
noncomputable def c1P : Payload :=
  { busNumber := "MH08AA1234"
    deviceId := some 7
    latitude := 19
    longitude := 72.8
    altitude := none
    accuracy := none
    speed := none
    heading := none
    status := none
    timestamp := { raw := "2024-01-01T00:01:40.000Z", parsed := some 100000 } }

/-- The first fix of the spec's two-fix scenario: vehicle MH08AA1234 at
(19.0000, 72.8000) at t = 0 with speed undefined. -/
noncomputable def c2P1 : Payload :=
  { busNumber := "MH08AA1234"
    deviceId := some 7
    latitude := 19
    longitude := 72.8
    altitude := none
    accuracy := none
    speed := none
    heading := none
    status := none
    timestamp := { raw := "1970-01-01T00:00:00.000Z", parsed := some 0 } }

/-- The second fix of the scenario: (19.0009, 72.8000), about 100 m north,
100 s later. -/
noncomputable def c2P2 : Payload :=
  { busNumber := "MH08AA1234"
    deviceId := some 7
    latitude := 19.0009
    longitude := 72.8
    altitude := none
    accuracy := none
    speed := none
    heading := none
    status := none
    timestamp := { raw := "1970-01-01T00:01:40.000Z", parsed := some 100000 } }

/-- A first-ever fix for a vehicle, with no derived fields in the payload. -/
noncomputable def c3P : Payload :=
  { busNumber := "MH08CC9012"
    deviceId := some 3
    latitude := 18.95
    longitude := 72.83
    altitude := none
    accuracy := none
    speed := none
    heading := none
    status := none
    timestamp := { raw := "2024-05-01T10:00:00.000Z", parsed := some 1714557600000 } }

/-- A stored fix with a later timestamp than the incoming `c4P`. -/
noncomputable def c4Pv : StoredFix :=
  { busNumber := "MH08DD3456"
    deviceId := some 4
    latitude := 19.1
    longitude := 72.9
    altitude := 0
    accuracy := 5
    speed := 3
    heading := 45
    status := MotionStatus.moving
    timestamp := { raw := "2024-01-01T00:05:00.000Z", parsed := some 300000 } }

/-- An out-of-order fix: its timestamp precedes the stored one. -/
noncomputable def c4P : Payload :=
  { busNumber := "MH08DD3456"
    deviceId := some 4
    latitude := 19.2
    longitude := 72.95
    altitude := none
    accuracy := none
    speed := some 9
    heading := none
    status := none
    timestamp := { raw := "2024-01-01T00:01:40.000Z", parsed := some 100000 } }

/-- A stored fix used to exercise the derivation branch. -/
noncomputable def c5Pv : StoredFix :=
  { busNumber := "MH08EE7890"
    deviceId := some 9
    latitude := 19
    longitude := 72.8
    altitude := 0
    accuracy := 5
    speed := 1
    heading := 0
    status := MotionStatus.stopped
    timestamp := { raw := "2024-01-01T00:00:00.000Z", parsed := some 0 } }

/-- A fix one second after `c5Pv`. -/
noncomputable def c5P : Payload :=
  { busNumber := "MH08EE7890"
    deviceId := some 9
    latitude := 19.0009
    longitude := 72.8
    altitude := some 12
    accuracy := none
    speed := none
    heading := none
    status := none
    timestamp := { raw := "2024-01-01T00:00:01.000Z", parsed := some 1000 } }

/-- A stored fix preceding the unparseable-timestamp submission. -/
noncomputable def c6Pv : StoredFix :=
  { busNumber := "MH08FF1122"
    deviceId := some 2
    latitude := 19
    longitude := 72.8
    altitude := 0
    accuracy := 5
    speed := 0
    heading := 0
    status := MotionStatus.stopped
    timestamp := { raw := "2024-01-01T00:00:00.000Z", parsed := some 0 } }

/-- A fix whose `observedAt` string does not parse: `new Date("not-a-date")`
is an Invalid Date, so the parsed time value is NaN (`none` here). -/
noncomputable def c6P : Payload :=
  { busNumber := "MH08FF1122"
    deviceId := some 2
    latitude := 19.5
    longitude := 72.9
    altitude := none
    accuracy := none
    speed := none
    heading := none
    status := none
    timestamp := { raw := "not-a-date", parsed := none } }

/-- A stored fix for the swallowed-failure scenario. -/
noncomputable def c7Pv : StoredFix :=
  { busNumber := "MH08GG3344"
    deviceId := some 11
    latitude := 19
    longitude := 72.8
    altitude := 0
    accuracy := 5
    speed := 4
    heading := 90
    status := MotionStatus.moving
    timestamp := { raw := "2024-01-01T00:00:00.000Z", parsed := some 0 } }

/-- A well-formed fix submitted while the previous-fix lookup fails. -/
noncomputable def c7P : Payload :=
  { busNumber := "MH08GG3344"
    deviceId := some 11
    latitude := 19.3
    longitude := 72.85
    altitude := none
    accuracy := none
    speed := none
    heading := none
    status := none
    timestamp := { raw := "2024-01-01T00:01:40.000Z", parsed := some 100000 } }

/-- A registry in which MH08AA1234 is already assigned handle 5. -/
def c8Buses : List Bus :=
  [ { busNumber := "MH08AA1234", assigned := true, deviceId := some 5,
      username := some "ravi" },
    { busNumber := "MH08BB5678", assigned := false, deviceId := none,
      username := none } ]

/-- A registry with one unassigned vehicle and one assigned vehicle
holding handle 5. -/
def c9Buses : List Bus :=
  [ { busNumber := "MH08AA1234", assigned := false, deviceId := none,
      username := none },
    { busNumber := "MH08BB5678", assigned := true, deviceId := some 5,
      username := some "dev" } ]

/-- A stored fix with nonnegative smoothed speed for the filter-bound
scenario. -/
noncomputable def c10Pv : StoredFix :=
  { busNumber := "MH08HH5566"
    deviceId := some 6
    latitude := 19
    longitude := 72.8
    altitude := 0
    accuracy := 5
    speed := 0
    heading := 0
    status := MotionStatus.stopped
    timestamp := { raw := "2024-01-01T00:00:00.000Z", parsed := some 0 } }

/-- A follow-up fix 100 s after `c10Pv`. -/
noncomputable def c10P : Payload :=
  { busNumber := "MH08HH5566"
    deviceId := some 6
    latitude := 19.0018
    longitude := 72.8
    altitude := none
    accuracy := none
    speed := none
    heading := none
    status := none
    timestamp := { raw := "2024-01-01T00:01:40.000Z", parsed := some 100000 } }

/-- The 2-D distance of the spec's two-fix scenario, from (19.0000, 72.8000)
to (19.0009, 72.8000). -/
noncomputable def c2Dist : ℝ :=
  calculateDistance { latitude := 19, longitude := 72.8 }
    { latitude := 19.0009, longitude := 72.8 }

/-- JavaScript's atan2 agrees with the angle on the sine/cosine pair when the
angle lies in the right half-plane. -/
theorem atan2_sin_cos {t : ℝ} (h1 : -(Real.pi / 2) < t) (h2 : t < Real.pi / 2) :
    atan2 (Real.sin t) (Real.cos t) = t := by
  have hc : 0 < Real.cos t := Real.cos_pos_of_mem_Ioo ⟨h1, h2⟩
  unfold atan2
  rw [if_pos hc, ← Real.tan_eq_sin_div_cos]
  exact Real.arctan_tan h1 h2

/-- On a common meridian the haversine of `server.js` collapses to radius
times the latitude difference in radians. -/
theorem calculateDistance_sameLon (lat1 lat2 lon : ℝ)
    (h0 : 0 ≤ lat2 - lat1) (h90 : lat2 - lat1 ≤ 90) :
    calculateDistance { latitude := lat1, longitude := lon }
        { latitude := lat2, longitude := lon }
      = 6378137 * ((lat2 - lat1) * Real.pi / 180) := by
  have hpi := Real.pi_pos
  have hθ0 : 0 ≤ (lat2 - lat1) * Real.pi / 180 / 2 := by positivity
  have hθlt : (lat2 - lat1) * Real.pi / 180 / 2 < Real.pi / 2 := by
    nlinarith [mul_le_mul_of_nonneg_right h90 (le_of_lt hpi)]
  have hθpi : (lat2 - lat1) * Real.pi / 180 / 2 ≤ Real.pi :=
    le_of_lt (lt_trans hθlt (by linarith))
  have hneg : -(Real.pi / 2) < (lat2 - lat1) * Real.pi / 180 / 2 := by linarith
  have hsin : 0 ≤ Real.sin ((lat2 - lat1) * Real.pi / 180 / 2) :=
    Real.sin_nonneg_of_nonneg_of_le_pi hθ0 hθpi
  have hcos : 0 ≤ Real.cos ((lat2 - lat1) * Real.pi / 180 / 2) :=
    le_of_lt (Real.cos_pos_of_mem_Ioo ⟨hneg, hθlt⟩)
  simp only [calculateDistance, toRad]
  rw [show (lon - lon) * Real.pi / 180 / 2 = 0 by ring]
  rw [Real.sin_zero]
  rw [show Real.sin ((lat2 - lat1) * Real.pi / 180 / 2) ^ 2 +
      Real.cos (lat1 * Real.pi / 180) * Real.cos (lat2 * Real.pi / 180) * 0 ^ 2
      = Real.sin ((lat2 - lat1) * Real.pi / 180 / 2) ^ 2 by ring]
  rw [Real.sqrt_sq hsin]
  rw [show (1 : ℝ) - Real.sin ((lat2 - lat1) * Real.pi / 180 / 2) ^ 2
      = Real.cos ((lat2 - lat1) * Real.pi / 180 / 2) ^ 2 from
    (Real.cos_sq' ((lat2 - lat1) * Real.pi / 180 / 2)).symm]
  rw [Real.sqrt_sq hcos]
  rw [atan2_sin_cos hneg hθlt]
  ring

/-- Without a previous fix the middleware passes the body through. -/
theorem processLocationData_none (p : Payload) :
    processLocationData none p = p := rfl

/-- With an unparseable incoming timestamp, `dt` is NaN and the guard fails:
the body passes through. -/
theorem processLocationData_badTs (pv : StoredFix) (p : Payload)
    (hp : p.timestamp.parsed = none) :
    processLocationData (some pv) p = p := by
  unfold processLocationData
  rw [hp]

/-- With a non-positive time difference the middleware skips derivation. -/
theorem processLocationData_nonpos (pv : StoredFix) (p : Payload) (tN tO : ℤ)
    (hp : p.timestamp.parsed = some tN) (hq : pv.timestamp.parsed = some tO)
    (hle : tN ≤ tO) :
    processLocationData (some pv) p = p := by
  have hdt : ¬ (0 : ℝ) < ((tN : ℝ) - (tO : ℝ)) / 1000 := by
    have h : (tN : ℝ) ≤ (tO : ℝ) := by exact_mod_cast hle
    have : ((tN : ℝ) - (tO : ℝ)) / 1000 ≤ 0 := by
      apply div_nonpos_of_nonpos_of_nonneg <;> linarith
    linarith
  unfold processLocationData
  dsimp only
  rw [hp, hq]
  simp only [if_neg hdt]

/-- With a positive time difference the middleware overwrites speed and
heading with the low-pass filtered derived values. -/
theorem processLocationData_pos (pv : StoredFix) (p : Payload) (tN tO : ℤ)
    (hp : p.timestamp.parsed = some tN) (hq : pv.timestamp.parsed = some tO)
    (hlt : tO < tN) :
    processLocationData (some pv) p =
      { p with
        speed := some (lowPassFilter (dist3dOf pv p / (((tN : ℝ) - (tO : ℝ)) / 1000))
          (some pv.speed) (3 / 10))
        heading := some (lowPassFilter (calculateBearing
            { latitude := pv.latitude, longitude := pv.longitude }
            { latitude := p.latitude, longitude := p.longitude })
          (some pv.heading) (3 / 10)) } := by
  have hdt : (0 : ℝ) < ((tN : ℝ) - (tO : ℝ)) / 1000 := by
    have h : (tO : ℝ) < (tN : ℝ) := by exact_mod_cast hlt
    have : (0 : ℝ) < (tN : ℝ) - (tO : ℝ) := by linarith
    positivity
  unfold processLocationData
  dsimp only
  rw [hp, hq]
  simp only [if_pos hdt]

/-- The middleware never touches the `status` field of the body. -/
theorem processLocationData_status (stored : Option StoredFix) (p : Payload) :
    (processLocationData stored p).status = p.status := by
  rcases stored with _ | pv
  · rfl
  · rcases hp : p.timestamp.parsed with _ | tN
    · rw [processLocationData_badTs pv p hp]
    · rcases hq : pv.timestamp.parsed with _ | tO
      · unfold processLocationData
        dsimp only
        rw [hp, hq]
      · rcases le_or_lt tN tO with hle | hlt
        · rw [processLocationData_nonpos pv p tN tO hp hq hle]
        · rw [processLocationData_pos pv p tN tO hp hq hlt]

/-- C1, counterexample.  The claim states that a stored fix's motionState is
`moving` exactly when the smoothed speed exceeds 1 m/s.  In `server.js` the
handler stores the payload's `status` verbatim and never classifies: here the
derived smoothed speed is 1.4 m/s (above any 1 m/s threshold), yet the stored
status is `stopped` because the payload carried none and the previous stored
status was `stopped`. -/
theorem c1_threshold_counterexample :
    (processLocationData (some c1Pv) c1P).speed = some (7 / 5) ∧
    (1 : ℝ) < 7 / 5 ∧
    (findOneAndUpdate (some c1Pv) (processLocationData (some c1Pv) c1P)).status
      = MotionStatus.stopped := by
  have hpos := processLocationData_pos c1Pv c1P 100000 0 rfl rfl (by decide)
  have hd : calculateDistance
      { latitude := c1Pv.latitude, longitude := c1Pv.longitude }
      { latitude := c1P.latitude, longitude := c1P.longitude } = 0 := by
    have h := calculateDistance_sameLon 19 19 72.8 (by norm_num) (by norm_num)
    rw [show (6378137 : ℝ) * (((19 : ℝ) - 19) * Real.pi / 180) = 0 by ring] at h
    exact h
  have h3d : dist3dOf c1Pv c1P = 0 := by
    unfold dist3dOf
    dsimp only
    rw [hd]
    rw [show c1P.altitude.getD 0 - c1Pv.altitude = 0 by norm_num [c1P, c1Pv]]
    rw [show (0 : ℝ) * 0 + 0 * 0 = 0 by ring]
    exact Real.sqrt_zero
  refine ⟨?_, by norm_num, ?_⟩
  · rw [hpos]
    show some (lowPassFilter (dist3dOf c1Pv c1P / ((((100000 : ℤ) : ℝ) - ((0 : ℤ) : ℝ)) / 1000))
      (some c1Pv.speed) (3 / 10)) = some (7 / 5)
    rw [h3d]
    show some ((3 : ℝ) / 10 * (0 / ((((100000 : ℤ) : ℝ) - ((0 : ℤ) : ℝ)) / 1000))
      + (1 - 3 / 10) * c1Pv.speed) = some (7 / 5)
    norm_num [c1Pv]
  · show (processLocationData (some c1Pv) c1P).status.getD c1Pv.status = MotionStatus.stopped
    rw [processLocationData_status]
    rfl

/-- C1 (amended).  The code does not apply a 1 m/s threshold.  In `server.js`
the stored motionState is exactly the payload's own `status` field (falling
back to the previously stored status when absent), independent of the smoothed
speed; in the `part_000` revision the classification is `moving` iff the
payload's speed field is truthy and strictly greater than 0 — threshold 0, not
1.  In particular a smoothed speed of 1.3 would be classified `moving` by the
`part_000` rule because 1.3 > 0. -/
theorem c1_status_not_thresholded :
    (∀ (pv : StoredFix) (p : Payload),
      (findOneAndUpdate (some pv) (processLocationData (some pv) p)).status
        = p.status.getD pv.status) ∧
    (∀ s : ℝ, statusOf (some s) = MotionStatus.moving ↔ 0 < s) ∧
    statusOf none = MotionStatus.stopped := by
  refine ⟨?_, ?_, rfl⟩
  · intro pv p
    show (processLocationData (some pv) p).status.getD pv.status = p.status.getD pv.status
    rw [processLocationData_status]
  · intro s
    show (if s ≠ 0 then (if 0 < s then MotionStatus.moving else MotionStatus.stopped)
      else MotionStatus.stopped) = MotionStatus.moving ↔ 0 < s
    by_cases h : s = 0
    · subst h
      simp
    · rw [if_pos h]
      by_cases h2 : 0 < s
      · simp [h2]
      · simp [h2]

/-- C3, counterexample.  The claim states the first stored fix has
`heading = undefined` (null, not the real value 0 degrees).  The location
schema declares `heading: { type: Number, default: 0 }`, so the inserted
document's heading is exactly the real value 0 degrees. -/
theorem c3_heading_counterexample :
    (findOneAndUpdate none c3P).heading = 0 ∧
    (findOneAndUpdate none c3P).speed = 0 ∧
    (findOneAndUpdate none c3P).status = MotionStatus.stopped :=
  ⟨rfl, rfl, rfl⟩

/-- C3 (amended).  A first fix (no stored document) passes through the
middleware untouched and is inserted with the schema defaults: `speed = 0`,
`heading = 0` (the numeric default — the document does not represent an
undefined heading), `motionState = stopped`, while position and timestamp are
stored as submitted. -/
theorem c3_first_fix_defaults (p : Payload)
    (hs : p.speed = none) (hh : p.heading = none) (hst : p.status = none) :
    processLocationData none p = p ∧
    findOneAndUpdate none p =
      { busNumber := p.busNumber
        deviceId := p.deviceId
        latitude := p.latitude
        longitude := p.longitude
        altitude := p.altitude.getD 0
        accuracy := p.accuracy.getD 5
        speed := 0
        heading := 0
        status := MotionStatus.stopped
        timestamp := p.timestamp } := by
  refine ⟨rfl, ?_⟩
  unfold findOneAndUpdate
  rw [hs, hh, hst]
  rfl

/-- C3, witness of the amended statement at a concrete first fix. -/
theorem c3_first_fix_defaults_witness :
    processLocationData none c3P = c3P ∧
    findOneAndUpdate none c3P =
      { busNumber := c3P.busNumber
        deviceId := c3P.deviceId
        latitude := c3P.latitude
        longitude := c3P.longitude
        altitude := c3P.altitude.getD 0
        accuracy := c3P.accuracy.getD 5
        speed := 0
        heading := 0
        status := MotionStatus.stopped
        timestamp := c3P.timestamp } :=
  c3_first_fix_defaults c3P rfl rfl rfl

/-- C4 (confirmed).  When the incoming fix's parsed timestamp is not later
than the stored one, the middleware skips derivation (the body is returned
untouched, so speed and heading are not recomputed), the upsert persists the
payload fields that are present unchanged (absent speed/heading keep the
previously stored values), and the handler still answers success. -/
theorem c4_stale_fix_skips_derivation (pv : StoredFix) (p : Payload) (tN tO : ℤ)
    (hp : p.timestamp.parsed = some tN) (hq : pv.timestamp.parsed = some tO)
    (hle : tN ≤ tO) :
    processLocationData (some pv) p = p ∧
    submitFix (some pv) false false p = Except.ok (findOneAndUpdate (some pv) p) ∧
    (findOneAndUpdate (some pv) p).latitude = p.latitude ∧
    (findOneAndUpdate (some pv) p).longitude = p.longitude ∧
    (findOneAndUpdate (some pv) p).timestamp = p.timestamp ∧
    (∀ s : ℝ, p.speed = some s → (findOneAndUpdate (some pv) p).speed = s) ∧
    (p.speed = none → (findOneAndUpdate (some pv) p).speed = pv.speed) ∧
    (∀ h : ℝ, p.heading = some h → (findOneAndUpdate (some pv) p).heading = h) ∧
    (p.heading = none → (findOneAndUpdate (some pv) p).heading = pv.heading) := by
  have hskip := processLocationData_nonpos pv p tN tO hp hq hle
  refine ⟨hskip, ?_, rfl, rfl, rfl, ?_, ?_, ?_, ?_⟩
  · show Except.ok (findOneAndUpdate (some pv) (processLocationData (some pv) p))
      = Except.ok (findOneAndUpdate (some pv) p)
    rw [hskip]
  · intro s hs
    show p.speed.getD pv.speed = s
    rw [hs]
    rfl
  · intro hs
    show p.speed.getD pv.speed = pv.speed
    rw [hs]
    rfl
  · intro h hh
    show p.heading.getD pv.heading = h
    rw [hh]
    rfl
  · intro hh
    show p.heading.getD pv.heading = pv.heading
    rw [hh]
    rfl

/-- C4, witness: a concrete out-of-order fix (incoming parsed time 100000 ms,
stored 300000 ms) is persisted raw — its payload speed 9 is stored as-is —
and the call succeeds. -/
theorem c4_stale_fix_witness :
    processLocationData (some c4Pv) c4P = c4P ∧
    submitFix (some c4Pv) false false c4P = Except.ok (findOneAndUpdate (some c4Pv) c4P) ∧
    (findOneAndUpdate (some c4Pv) c4P).speed = 9 ∧
    (findOneAndUpdate (some c4Pv) c4P).heading = c4Pv.heading := by
  have h := c4_stale_fix_skips_derivation c4Pv c4P 100000 300000 rfl rfl (by decide)
  exact ⟨h.1, h.2.1, h.2.2.2.2.2.1 9 rfl, h.2.2.2.2.2.2.2.2 rfl⟩

/-- C7, counterexample.  The claim states that every failure during the
derive-and-persist sequence is surfaced and no invocation silently succeeds on
partial failure.  In `server.js` the middleware's catch block logs the error
and calls `next()`: with the previous-fix lookup failing, the raw payload is
persisted and the handler answers success. -/
theorem c7_counterexample :
    submitFix (some c7Pv) true false c7P = Except.ok (findOneAndUpdate (some c7Pv) c7P) ∧
    (findOneAndUpdate (some c7Pv) c7P).speed = c7Pv.speed :=
  ⟨rfl, rfl⟩

/-- C7 (amended).  Only a failure of the final upsert is surfaced to the
caller (HTTP 500); a failure while loading the previous fix or computing the
derived fields is caught, logged and swallowed — the handler persists the raw
payload without derived fields and reports success. -/
theorem c7_error_swallowed (stored : Option StoredFix) (p : Payload) :
    submitFix stored true false p = Except.ok (findOneAndUpdate stored p) ∧
    submitFix stored true true p = Except.error "Failed to update location" ∧
    submitFix stored false true p = Except.error "Failed to update location" :=
  ⟨rfl, rfl, rfl⟩

/-- The scenario distance in closed form: the two fixes share a meridian, so
the haversine collapses to radius times the latitude difference in radians. -/
theorem c2Dist_eq : c2Dist = 6378137 * (((19.0009 : ℝ) - 19) * Real.pi / 180) :=
  calculateDistance_sameLon 19 19.0009 72.8 (by norm_num) (by norm_num)

/-- The scenario distance is above 99 m. -/
theorem c2Dist_gt : 99 < c2Dist := by
  rw [c2Dist_eq]
  nlinarith [Real.pi_gt_d6, Real.pi_lt_d6]

/-- The scenario distance is below 101 m. -/
theorem c2Dist_lt : c2Dist < 101 := by
  rw [c2Dist_eq]
  nlinarith [Real.pi_gt_d6, Real.pi_lt_d6]

/-- The speed the pipeline derives for the scenario's second fix: the first
fix was inserted with the schema default `speed = 0`, so the filter blends
`0.3 * rawSpeed + 0.7 * 0`. -/
theorem c2_enriched_speed :
    (processLocationData (some (findOneAndUpdate none c2P1)) c2P2).speed
      = some ((3 / 10) * (c2Dist / 100)) := by
  have hpos := processLocationData_pos (findOneAndUpdate none c2P1) c2P2 100000 0
    rfl rfl (by decide)
  rw [hpos]
  have h3d : dist3dOf (findOneAndUpdate none c2P1) c2P2 = c2Dist := by
    unfold dist3dOf
    dsimp only
    have e1 : calculateDistance
        { latitude := (findOneAndUpdate none c2P1).latitude,
          longitude := (findOneAndUpdate none c2P1).longitude }
        { latitude := c2P2.latitude, longitude := c2P2.longitude } = c2Dist := rfl
    rw [e1]
    have e2 : c2P2.altitude.getD 0 - (findOneAndUpdate none c2P1).altitude = 0 := by
      show (0 : ℝ) - 0 = 0
      norm_num
    rw [e2]
    rw [show c2Dist * c2Dist + 0 * 0 = c2Dist * c2Dist by ring]
    exact Real.sqrt_mul_self (by nlinarith [c2Dist_gt])
  show some (lowPassFilter
      (dist3dOf (findOneAndUpdate none c2P1) c2P2 / ((((100000 : ℤ) : ℝ) - ((0 : ℤ) : ℝ)) / 1000))
      (some (findOneAndUpdate none c2P1).speed) (3 / 10))
    = some ((3 / 10) * (c2Dist / 100))
  rw [h3d]
  have hspd : (findOneAndUpdate none c2P1).speed = 0 := rfl
  rw [hspd]
  show some ((3 : ℝ) / 10 * (c2Dist / ((((100000 : ℤ) : ℝ) - ((0 : ℤ) : ℝ)) / 1000))
      + (1 - 3 / 10) * 0) = some ((3 / 10) * (c2Dist / 100))
  norm_num

/-- C2, counterexample.  The claim states the smoothed speed of the second
scenario fix is 1.0 m/s (the raw value passing through).  The pipeline stores
about 0.30 m/s — strictly below 1/2 — because the first fix was inserted with
the schema default `speed = 0`, which is a number, not a missing previous
smoothed value, so the filter does not pass the raw value through. -/
theorem c2_smoothed_speed_counterexample :
    (processLocationData (some (findOneAndUpdate none c2P1)) c2P2).speed.getD 99 < 1 / 2 := by
  rw [c2_enriched_speed]
  show (3 : ℝ) / 10 * (c2Dist / 100) < 1 / 2
  nlinarith [c2Dist_lt, c2Dist_gt]

/-- C2 (amended).  For the spec's two-fix scenario the derived 2-D distance is
indeed ≈ 100 m (between 99 and 101) and the raw speed ≈ 1.0 m/s (between 0.99
and 1.01), but the stored smoothed speed is `0.3 * rawSpeed` ≈ 0.30 m/s — the
previous stored fix carries the schema-default speed 0, not an absent smoothed
value — and the stored status is `stopped` only because the payload carries no
status and the previous document's status (the schema default `stopped`) is
kept; `server.js` derives no motionState at all. -/
theorem c2_second_fix_scenario :
    99 < c2Dist ∧ c2Dist < 101 ∧
    (processLocationData (some (findOneAndUpdate none c2P1)) c2P2).speed
      = some ((3 / 10) * (c2Dist / 100)) ∧
    99 / 100 < c2Dist / 100 ∧ c2Dist / 100 < 101 / 100 ∧
    (findOneAndUpdate (some (findOneAndUpdate none c2P1))
        (processLocationData (some (findOneAndUpdate none c2P1)) c2P2)).status
      = MotionStatus.stopped := by
  refine ⟨c2Dist_gt, c2Dist_lt, c2_enriched_speed,
    by nlinarith [c2Dist_gt], by nlinarith [c2Dist_lt], ?_⟩
  show (processLocationData (some (findOneAndUpdate none c2P1)) c2P2).status.getD
      (findOneAndUpdate none c2P1).status = MotionStatus.stopped
  rw [processLocationData_status]
  rfl

/-- C6, counterexample.  The claim states a fix with an unparseable
`observedAt` fails with `InvalidInput` before any state mutation and is never
stored.  `server.js` performs no timestamp validation: the fix is upserted
with the unparseable string and the handler answers success. -/
theorem c6_counterexample :
    submitFix (some c6Pv) false false c6P = Except.ok (findOneAndUpdate (some c6Pv) c6P) ∧
    (findOneAndUpdate (some c6Pv) c6P).timestamp.raw = "not-a-date" := by
  have hskip := processLocationData_badTs c6Pv c6P rfl
  constructor
  · show Except.ok (findOneAndUpdate (some c6Pv) (processLocationData (some c6Pv) c6P))
      = Except.ok (findOneAndUpdate (some c6Pv) c6P)
    rw [hskip]
  · rfl

/-- C6 (amended).  A non-parseable `observedAt` is not rejected by either
revision: `server.js` has no timestamp validation, and `part_000` only rejects
a falsy (empty) timestamp string.  Derivation is skipped (the NaN time
difference fails the `dt > 0` guard), the fix is stored with the raw
unparseable string, and the call succeeds. -/
theorem c6_unparseable_timestamp_accepted (pv : StoredFix) (p : Payload) (d : ℤ)
    (hbad : p.timestamp.parsed = none) (hraw : p.timestamp.raw ≠ "")
    (hbus : p.busNumber ≠ "") (hdev : p.deviceId = some d) (hd0 : d ≠ 0) :
    processLocationData (some pv) p = p ∧
    submitFix (some pv) false false p = Except.ok (findOneAndUpdate (some pv) p) ∧
    (findOneAndUpdate (some pv) p).timestamp = p.timestamp ∧
    handleLocationV0 (some pv) p
      = Except.ok (findOneAndUpdate (some pv) { p with status := some (statusOf p.speed) }) := by
  have hskip := processLocationData_badTs pv p hbad
  refine ⟨hskip, ?_, rfl, ?_⟩
  · show Except.ok (findOneAndUpdate (some pv) (processLocationData (some pv) p))
      = Except.ok (findOneAndUpdate (some pv) p)
    rw [hskip]
  · have hcond : ¬ (p.busNumber = "" ∨ p.deviceId = none ∨ p.deviceId = some 0 ∨
        p.timestamp.raw = "") := by
      push_neg
      refine ⟨hbus, ?_, ?_, hraw⟩
      · rw [hdev]
        simp
      · rw [hdev]
        simp [hd0]
    unfold handleLocationV0
    rw [if_neg hcond]

/-- C6, witness of the amended statement: the concrete fix with timestamp
string "not-a-date" is accepted and stored by both revisions. -/
theorem c6_unparseable_timestamp_witness :
    processLocationData (some c6Pv) c6P = c6P ∧
    submitFix (some c6Pv) false false c6P = Except.ok (findOneAndUpdate (some c6Pv) c6P) ∧
    (findOneAndUpdate (some c6Pv) c6P).timestamp = c6P.timestamp ∧
    handleLocationV0 (some c6Pv) c6P
      = Except.ok (findOneAndUpdate (some c6Pv) { c6P with status := some (statusOf c6P.speed) }) :=
  c6_unparseable_timestamp_accepted c6Pv c6P 2 rfl (by decide) (by decide) rfl (by decide)

/-- The code's fixed-radius haversine is the spec's haversine instantiated at
radius 6,378,137 m. -/
theorem calculateDistance_eq_spec (c1 c2 : Coord) :
    calculateDistance c1 c2 = haversineSpecDist 6378137 c1 c2 := by
  unfold calculateDistance haversineSpecDist toRad
  dsimp only
  rw [show (c2.latitude - c1.latitude) * Real.pi / 180 / 2
      = (c2.latitude * Real.pi / 180 - c1.latitude * Real.pi / 180) / 2 by ring]
  rw [show (c2.longitude - c1.longitude) * Real.pi / 180 / 2
      = (c2.longitude * Real.pi / 180 - c1.longitude * Real.pi / 180) / 2 by ring]

/-- C5 (confirmed).  Whenever a previous fix exists and `dt > 0`, the 2-D
distance is the haversine great-circle distance on a sphere of radius exactly
6,378,137 m, the 3-D distance is `sqrt(dist2d^2 + (alt_raw - alt_prev)^2)`,
and the raw speed fed into the smoothing filter is `dist3d / dt`. -/
theorem c5_raw_speed_formula (pv : StoredFix) (p : Payload) (tN tO : ℤ)
    (hp : p.timestamp.parsed = some tN) (hq : pv.timestamp.parsed = some tO)
    (hlt : tO < tN) :
    calculateDistance { latitude := pv.latitude, longitude := pv.longitude }
        { latitude := p.latitude, longitude := p.longitude }
      = haversineSpecDist 6378137 { latitude := pv.latitude, longitude := pv.longitude }
          { latitude := p.latitude, longitude := p.longitude } ∧
    dist3dOf pv p = Real.sqrt
      (haversineSpecDist 6378137 { latitude := pv.latitude, longitude := pv.longitude }
          { latitude := p.latitude, longitude := p.longitude } ^ 2
        + (p.altitude.getD 0 - pv.altitude) ^ 2) ∧
    (processLocationData (some pv) p).speed
      = some (lowPassFilter (dist3dOf pv p / (((tN : ℝ) - (tO : ℝ)) / 1000))
          (some pv.speed) (3 / 10)) := by
  refine ⟨calculateDistance_eq_spec _ _, ?_, ?_⟩
  · unfold dist3dOf
    dsimp only
    rw [← calculateDistance_eq_spec]
    congr 1
    ring
  · rw [processLocationData_pos pv p tN tO hp hq hlt]

/-- C5, witness at a concrete pair of fixes one second apart. -/
theorem c5_raw_speed_witness :
    calculateDistance { latitude := c5Pv.latitude, longitude := c5Pv.longitude }
        { latitude := c5P.latitude, longitude := c5P.longitude }
      = haversineSpecDist 6378137 { latitude := c5Pv.latitude, longitude := c5Pv.longitude }
          { latitude := c5P.latitude, longitude := c5P.longitude } ∧
    dist3dOf c5Pv c5P = Real.sqrt
      (haversineSpecDist 6378137 { latitude := c5Pv.latitude, longitude := c5Pv.longitude }
          { latitude := c5P.latitude, longitude := c5P.longitude } ^ 2
        + (c5P.altitude.getD 0 - c5Pv.altitude) ^ 2) ∧
    (processLocationData (some c5Pv) c5P).speed
      = some (lowPassFilter (dist3dOf c5Pv c5P / ((((1000 : ℤ) : ℝ) - ((0 : ℤ) : ℝ)) / 1000))
          (some c5Pv.speed) (3 / 10)) :=
  c5_raw_speed_formula c5Pv c5P 1000 0 rfl rfl (by decide)

/-- C10 (confirmed).  With `alpha = 0.3` the filter output is a convex
combination of the current and previous values, hence lies between their min
and max and is nonnegative whenever both are; consequently the smoothed speed
the pipeline stores in the `dt > 0` branch is nonnegative whenever the
previously stored speed is (the raw speed, a nonnegative square root divided
by a positive `dt`, is nonnegative automatically). -/
theorem c10_filter_bounds (c p : ℝ) :
    (min c p ≤ lowPassFilter c (some p) (3 / 10) ∧
      lowPassFilter c (some p) (3 / 10) ≤ max c p) ∧
    (0 ≤ c → 0 ≤ p → 0 ≤ lowPassFilter c (some p) (3 / 10)) ∧
    (∀ (pv : StoredFix) (q : Payload) (tN tO : ℤ),
      q.timestamp.parsed = some tN → pv.timestamp.parsed = some tO → tO < tN →
      0 ≤ pv.speed →
      (processLocationData (some pv) q).speed
        = some (lowPassFilter (dist3dOf pv q / (((tN : ℝ) - (tO : ℝ)) / 1000))
            (some pv.speed) (3 / 10)) ∧
      0 ≤ lowPassFilter (dist3dOf pv q / (((tN : ℝ) - (tO : ℝ)) / 1000))
            (some pv.speed) (3 / 10)) := by
  have hval : lowPassFilter c (some p) (3 / 10) = 3 / 10 * c + (1 - 3 / 10) * p := rfl
  refine ⟨⟨?_, ?_⟩, ?_, ?_⟩
  · rw [hval]
    nlinarith [min_le_left c p, min_le_right c p]
  · rw [hval]
    nlinarith [le_max_left c p, le_max_right c p]
  · intro hc hp
    rw [hval]
    nlinarith
  · intro pv q tN tO hp hq hlt hspd
    refine ⟨by rw [processLocationData_pos pv q tN tO hp hq hlt], ?_⟩
    have hdt : (0 : ℝ) < ((tN : ℝ) - (tO : ℝ)) / 1000 := by
      have h : (tO : ℝ) < (tN : ℝ) := by exact_mod_cast hlt
      have h2 : (0 : ℝ) < (tN : ℝ) - (tO : ℝ) := by linarith
      positivity
    have hd0 : 0 ≤ dist3dOf pv q := Real.sqrt_nonneg _
    have hraw : 0 ≤ dist3dOf pv q / (((tN : ℝ) - (tO : ℝ)) / 1000) :=
      div_nonneg hd0 (le_of_lt hdt)
    show 0 ≤ 3 / 10 * (dist3dOf pv q / (((tN : ℝ) - (tO : ℝ)) / 1000)) + (1 - 3 / 10) * pv.speed
    nlinarith

/-- C10, witness: the bounds at current value 1 and previous value 2, and the
pipeline conclusion at a concrete pair of fixes 100 s apart with previously
stored speed 0. -/
theorem c10_filter_bounds_witness :
    (min (1 : ℝ) 2 ≤ lowPassFilter 1 (some 2) (3 / 10) ∧
      lowPassFilter 1 (some 2) (3 / 10) ≤ max (1 : ℝ) 2) ∧
    0 ≤ lowPassFilter 1 (some 2) (3 / 10) ∧
    ((processLocationData (some c10Pv) c10P).speed
        = some (lowPassFilter (dist3dOf c10Pv c10P / ((((100000 : ℤ) : ℝ) - ((0 : ℤ) : ℝ)) / 1000))
            (some c10Pv.speed) (3 / 10)) ∧
      0 ≤ lowPassFilter (dist3dOf c10Pv c10P / ((((100000 : ℤ) : ℝ) - ((0 : ℤ) : ℝ)) / 1000))
            (some c10Pv.speed) (3 / 10)) := by
  refine ⟨(c10_filter_bounds 1 2).1, ?_, ?_⟩
  · exact (c10_filter_bounds 1 2).2.1 (by norm_num) (by norm_num)
  · exact (c10_filter_bounds 1 2).2.2 c10Pv c10P 100000 0 rfl rfl (by decide)
      (by norm_num [c10Pv])

/-- Membership in the collected device ids of assigned buses. -/
theorem mem_assignedIdsOf {buses : List Bus} {i : ℤ} :
    i ∈ assignedIdsOf buses ↔ ∃ b ∈ buses, b.assigned = true ∧ b.deviceId = some i := by
  unfold assignedIdsOf
  simp only [List.mem_filterMap, List.mem_filter]
  constructor
  · rintro ⟨b, ⟨hmem, hassigned⟩, hid⟩
    exact ⟨b, hmem, hassigned, hid⟩
  · rintro ⟨b, hmem, hassigned, hid⟩
    exact ⟨b, ⟨hmem, hassigned⟩, hid⟩

/-- Membership in the free-handle list computed by the register handler. -/
theorem mem_freeIdsOf {buses : List Bus} {i : ℤ} :
    i ∈ freeIdsOf buses ↔ 1 ≤ i ∧ i ≤ 100 ∧ i ∉ assignedIdsOf buses := by
  unfold freeIdsOf
  constructor
  · intro hmem
    rw [List.mem_filter] at hmem
    obtain ⟨hmap, hdec⟩ := hmem
    rw [List.mem_map] at hmap
    obtain ⟨j, hj, hji⟩ := hmap
    rw [List.mem_range] at hj
    have hni : i ∉ assignedIdsOf buses := of_decide_eq_true hdec
    subst hji
    exact ⟨by omega, by omega, hni⟩
  · rintro ⟨h1, h2, hni⟩
    rw [List.mem_filter]
    refine ⟨?_, decide_eq_true hni⟩
    rw [List.mem_map]
    exact ⟨(i - 1).toNat, by rw [List.mem_range]; omega, by omega⟩

/-- The free-handle list is empty exactly when every handle in [1, 100] is
held by an assigned bus. -/
theorem freeIdsOf_eq_nil {buses : List Bus} :
    freeIdsOf buses = [] ↔ ∀ i : ℤ, 1 ≤ i → i ≤ 100 → i ∈ assignedIdsOf buses := by
  constructor
  · intro h i h1 h2
    by_contra hni
    have hmem : i ∈ freeIdsOf buses := mem_freeIdsOf.mpr ⟨h1, h2, hni⟩
    rw [h] at hmem
    exact List.not_mem_nil i hmem
  · intro h
    by_contra hne
    obtain ⟨i, hi⟩ := List.exists_mem_of_ne_nil _ hne
    obtain ⟨h1, h2, hni⟩ := mem_freeIdsOf.mp hi
    exact hni (h i h1 h2)

/-- Indexing with a default inside the bounds lands in the list. -/
theorem getD_mem {l : List ℤ} {n : ℕ} (h : n < l.length) : l.getD n 0 ∈ l := by
  induction l generalizing n with
  | nil => simp at h
  | cons x xs ih =>
    cases n with
    | zero => exact List.mem_cons_self x xs
    | succ m =>
      have hm : m < xs.length := by simpa using h
      exact List.mem_cons_of_mem x (ih hm)

/-- Every element of `saveBus l nb` is the new bus or an element of `l`. -/
theorem mem_saveBus {l : List Bus} {nb y : Bus} (hy : y ∈ saveBus l nb) :
    y = nb ∨ y ∈ l := by
  induction l with
  | nil =>
    simp [saveBus] at hy
  | cons x xs ih =>
    unfold saveBus at hy
    by_cases hx : x.busNumber = nb.busNumber
    · rw [if_pos hx] at hy
      rcases List.mem_cons.mp hy with h | h
      · exact Or.inl h
      · exact Or.inr (List.mem_cons_of_mem x h)
    · rw [if_neg hx] at hy
      rcases List.mem_cons.mp hy with h | h
      · exact Or.inr (h ▸ List.mem_cons_self x xs)
      · rcases ih h with h2 | h2
        · exact Or.inl h2
        · exact Or.inr (List.mem_cons_of_mem x h2)

/-- Replacing one bus preserves a pairwise relation when the new bus relates
to everything already present. -/
theorem pairwise_saveBus {R : Bus → Bus → Prop} {l : List Bus} {nb : Bus}
    (hp : List.Pairwise R l) (hall : ∀ y ∈ l, R nb y ∧ R y nb) :
    List.Pairwise R (saveBus l nb) := by
  induction l with
  | nil => exact List.Pairwise.nil
  | cons x xs ih =>
    rw [List.pairwise_cons] at hp
    obtain ⟨hx, hxs⟩ := hp
    unfold saveBus
    by_cases hb : x.busNumber = nb.busNumber
    · rw [if_pos hb, List.pairwise_cons]
      exact ⟨fun y hy => (hall y (List.mem_cons_of_mem x hy)).1, hxs⟩
    · rw [if_neg hb, List.pairwise_cons]
      refine ⟨?_, ih hxs (fun y hy => hall y (List.mem_cons_of_mem x hy))⟩
      intro y hy
      rcases mem_saveBus hy with rfl | hyxs
      · exact (hall x (List.mem_cons_self x xs)).2
      · exact hx y hyxs

/-- C8 (confirmed).  Registering a bus whose `assigned` flag is already true
answers `AlreadyAssigned` before any write: the registry state — including the
bus's deviceId, username and assigned flag — is returned unchanged. -/
theorem c8_already_assigned (buses : List Bus) (username busNumber : String)
    (k : ℕ) (b : Bus) (hu : username ≠ "") (hb : busNumber ≠ "")
    (hfind : findBus buses busNumber = some b) (hassigned : b.assigned = true) :
    apiRegister buses username busNumber k
      = (Except.error RegError.alreadyAssigned, buses) := by
  unfold apiRegister
  rw [if_neg (by simp [hu, hb]), hfind]
  dsimp only
  rw [if_pos hassigned]

/-- C8, witness: registering the already-assigned MH08AA1234 fails with
`AlreadyAssigned` and leaves the registry unchanged. -/
theorem c8_already_assigned_witness :
    apiRegister c8Buses "anna" "MH08AA1234" 3
      = (Except.error RegError.alreadyAssigned, c8Buses) :=
  c8_already_assigned c8Buses "anna" "MH08AA1234" 3
    { busNumber := "MH08AA1234", assigned := true, deviceId := some 5,
      username := some "ravi" }
    (by decide) (by decide) (by decide) rfl

/-- C9 (confirmed).  Once the handler reaches the pool (inputs present, bus
found, not yet assigned): it answers `PoolExhausted` exactly when every handle
in [1, 100] is held by an assigned bus; and on success the returned handle is
in [1, 100], is held by no assigned bus of the prior state, and the
handle-uniqueness invariant over assigned buses is preserved. -/
theorem c9_handle_pool (buses : List Bus) (username busNumber : String) (k : ℕ)
    (b : Bus) (hu : username ≠ "") (hb : busNumber ≠ "")
    (hfind : findBus buses busNumber = some b) (hna : b.assigned = false) :
    ((apiRegister buses username busNumber k).1 = Except.error RegError.poolExhausted
      ↔ ∀ i : ℤ, 1 ≤ i → i ≤ 100 →
          ∃ b2 ∈ buses, b2.assigned = true ∧ b2.deviceId = some i) ∧
    (∀ (id : ℤ) (buses2 : List Bus),
      apiRegister buses username busNumber k = (Except.ok id, buses2) →
      (1 ≤ id ∧ id ≤ 100) ∧
      ¬ (∃ b2 ∈ buses, b2.assigned = true ∧ b2.deviceId = some id) ∧
      (HandleUnique buses → HandleUnique buses2)) := by
  unfold apiRegister
  rw [if_neg (by simp [hu, hb]), hfind]
  dsimp only
  rw [if_neg (by simp [hna])]
  by_cases hfe : freeIdsOf buses = []
  · rw [if_pos hfe]
    constructor
    · constructor
      · intro _ i h1 h2
        exact mem_assignedIdsOf.mp (freeIdsOf_eq_nil.mp hfe i h1 h2)
      · intro _
        rfl
    · intro id buses2 heq
      exact absurd heq (by simp)
  · rw [if_neg hfe]
    constructor
    · constructor
      · intro habs
        exact absurd habs (by simp)
      · intro hall
        exact absurd (freeIdsOf_eq_nil.mpr
          (fun i h1 h2 => mem_assignedIdsOf.mpr (hall i h1 h2))) hfe
    · intro id buses2 heq
      rw [Prod.mk.injEq] at heq
      obtain ⟨heq1, heq2⟩ := heq
      have hid : (freeIdsOf buses).getD (k % (freeIdsOf buses).length) 0 = id := by
        injection heq1
      have hlen : 0 < (freeIdsOf buses).length := List.length_pos.mpr hfe
      have hmem : (freeIdsOf buses).getD (k % (freeIdsOf buses).length) 0 ∈ freeIdsOf buses :=
        getD_mem (Nat.mod_lt _ hlen)
      rw [hid] at hmem
      obtain ⟨h1, h2, hnotin⟩ := mem_freeIdsOf.mp hmem
      have hfresh : ¬ ∃ b2 ∈ buses, b2.assigned = true ∧ b2.deviceId = some id :=
        fun hex => hnotin (mem_assignedIdsOf.mpr hex)
      refine ⟨⟨h1, h2⟩, hfresh, ?_⟩
      intro huniq
      rw [← heq2, hid]
      apply pairwise_saveBus huniq
      intro y hy
      constructor
      · intro h _ hya hnbid
        have hhid : h = id := by
          have : some id = some h := hnbid
          injection this with e
          exact e.symm
        subst hhid
        intro hyid
        exact hfresh ⟨y, hy, hya, hyid⟩
      · intro h hya _ hyid hnbid
        have : some id = some h := hnbid
        injection this with e
        subst e
        exact hfresh ⟨y, hy, hya, hyid⟩

/-- C9, witness: in a registry where only handle 5 is taken, registering the
unassigned MH08AA1234 with draw index 0 yields handle 1, which is in range,
fresh, and keeps the uniqueness invariant. -/
theorem c9_handle_pool_witness :
    (1 ≤ (1 : ℤ) ∧ (1 : ℤ) ≤ 100) ∧
    ¬ (∃ b2 ∈ c9Buses, b2.assigned = true ∧ b2.deviceId = some 1) ∧
    (HandleUnique c9Buses → HandleUnique
      [ { busNumber := "MH08AA1234", assigned := true, deviceId := some 1,
          username := some "anna" },
        { busNumber := "MH08BB5678", assigned := true, deviceId := some 5,
          username := some "dev" } ]) :=
  (c9_handle_pool c9Buses "anna" "MH08AA1234" 0
      { busNumber := "MH08AA1234", assigned := false, deviceId := none, username := none }
      (by decide) (by decide) (by decide) rfl).2 1 _ rfl

end LSbackend
